import Mathlib

/- Verification of the listing reconciliation engine of
   TrustHouseSittersAlerts (src/scraper.py) against its specification.

   The engine is shallowly embedded: pandas DataFrames become lists of
   records, the keyed `combine_first` outer join becomes an explicit merge
   over unique keys (the pandas semantics for key-unique frames), and the
   Python date handling is modelled over decimal strings and a proleptic
   Gregorian day count.  All definitions are executable. -/

set_option maxHeartbeats 1000000

/-- Scanner embedding `re.search(r'/l/(\d+)(?:/|$)', url)` from
`listing_id_from_url` (src/scraper.py:99-101).  The regex matches at the
leftmost position where the input contains `/l/` followed by a nonempty
digit run whose greedy extent is terminated by `/` or the end of the
string (a shorter digit run can never satisfy the terminator, since the
following character would again be a digit).  On failure at a position the
search resumes one character further right. -/
def scanListingId : List Char → Option (List Char)
  | [] => none
  | c :: rest =>
    if c = '/' then
      match rest with
      | 'l' :: '/' :: rest2 =>
        let ds := rest2.takeWhile Char.isDigit
        if ds.isEmpty then scanListingId rest
        else
          match rest2.drop ds.length with
          | [] => some ds
          | '/' :: _ => some ds
          | _ => scanListingId rest
      | _ => scanListingId rest
    else scanListingId rest

/-- `listing_id_from_url` (src/scraper.py:99-101): the captured digit run
when the regex matches, otherwise the whole URL. -/
def listing_id_from_url (url : String) : String :=
  match scanListingId url.data with
  | some ds => String.mk ds
  | none => url

example : listing_id_from_url "https://site.com/house-and-pet-sitting-assignments/l/12345/" = "12345" := by decide
example : listing_id_from_url "https://site.com/l/67890" = "67890" := by decide
example : listing_id_from_url "https://site.com/no_id_here/" = "https://site.com/no_id_here/" := by decide
example : listing_id_from_url "https://site.com/l/abc/" = "https://site.com/l/abc/" := by decide

/-- Splitter mirroring Python `str.split(" ")` for a single-space separator,
used to tokenize the date texts handled by `calculate_days`
(src/scraper.py:771-794). -/
def splitOnSpace : List Char → List (List Char)
  | [] => [[]]
  | c :: cs =>
    let r := splitOnSpace cs
    if c = ' ' then [] :: r
    else
      match r with
      | x :: xs => (c :: x) :: xs
      | [] => [[c]]

/-- Python `str.strip()` on a character list: drop whitespace on both ends. -/
def stripChars (cs : List Char) : List Char :=
  ((cs.dropWhile Char.isWhitespace).reverse.dropWhile Char.isWhitespace).reverse

/-- Value of a run of decimal digits. -/
def digitsVal (cs : List Char) : Nat :=
  cs.foldl (fun a c => a * 10 + (c.toNat - 48)) 0

/-- Day-of-month token as accepted by `strptime`'s `%d`: one or two decimal
digits with value at least 1 (the directive's pattern is
`3[01]|[12]\d|0[1-9]|[1-9]`). -/
def parseDayTok (cs : List Char) : Option Nat :=
  if cs ≠ [] ∧ cs.length ≤ 2 ∧ cs.all Char.isDigit ∧ 1 ≤ digitsVal cs ∧ digitsVal cs ≤ 31
  then some (digitsVal cs) else none

/-- Year token as accepted by `strptime`'s `%Y` (four decimal digits), with
`datetime`'s MINYEAR check (year 0 is rejected when the date is built). -/
def parseYearTok (cs : List Char) : Option Nat :=
  if cs.length = 4 ∧ cs.all Char.isDigit ∧ 1 ≤ digitsVal cs
  then some (digitsVal cs) else none

/-- Abbreviated month names matched by `%b` (Python matches them
case-insensitively against the lowercased table). -/
def monthAbbrevTable : List (List Char) :=
  ["jan".data, "feb".data, "mar".data, "apr".data, "may".data, "jun".data,
   "jul".data, "aug".data, "sep".data, "oct".data, "nov".data, "dec".data]

/-- Full month names matched by `%B`. -/
def monthFullTable : List (List Char) :=
  ["january".data, "february".data, "march".data, "april".data, "may".data,
   "june".data, "july".data, "august".data, "september".data, "october".data,
   "november".data, "december".data]

/-- Month token: case-insensitive lookup in the given name table; months are
numbered from 1. -/
def parseMonthTok (table : List (List Char)) (cs : List Char) : Option Nat :=
  match table.findIdx? (fun t => t == cs.map Char.toLower) with
  | some i => some (i + 1)
  | none => none

/-- A calendar date as `datetime` holds it. -/
structure SimpleDate where
  y : Nat
  m : Nat
  d : Nat
deriving DecidableEq, Repr

/-- Gregorian leap-year rule used by `datetime`. -/
def isLeapYear (y : Nat) : Bool :=
  (y % 4 == 0 && y % 100 != 0) || y % 400 == 0

/-- Length of a month, as validated by the `datetime` constructor. -/
def daysInMonth (y m : Nat) : Nat :=
  if m == 2 then (if isLeapYear y then 29 else 28)
  else if m == 4 || m == 6 || m == 9 || m == 11 then 30
  else 31

/-- The `datetime(y, m, d)` constructor's day-of-month validation. -/
def mkValidDate (y m d : Nat) : Option SimpleDate :=
  if 1 ≤ d ∧ d ≤ daysInMonth y m then some ⟨y, m, d⟩ else none

/-- Format `"%d %b %Y"` / `"%d %B %Y"` (day, month name, four-digit year,
single-space separated as the scraped date texts are). -/
def parse_dMY (table : List (List Char)) (s : List Char) : Option SimpleDate :=
  match splitOnSpace s with
  | [ds, ms, ys] => do
    let d ← parseDayTok ds
    let m ← parseMonthTok table ms
    let y ← parseYearTok ys
    mkValidDate y m d
  | _ => none

/-- Format `"%b %d, %Y"` / `"%B %d, %Y"` (month name, day followed by a
literal comma, four-digit year). -/
def parse_MdY (table : List (List Char)) (s : List Char) : Option SimpleDate :=
  match splitOnSpace s with
  | [ms, dc, ys] =>
    match dc.reverse with
    | ',' :: drev => do
      let m ← parseMonthTok table ms
      let d ← parseDayTok drev.reverse
      let y ← parseYearTok ys
      mkValidDate y m d
    | _ => none
  | _ => none

/-- The four accepted formats, in the order `calculate_days` tries them
(src/scraper.py:785): `"%b %d, %Y"`, `"%d %b %Y"`, `"%B %d, %Y"`,
`"%d %B %Y"`. -/
def dateFmtFns : List (List Char → Option SimpleDate) :=
  [parse_MdY monthAbbrevTable, parse_dMY monthAbbrevTable,
   parse_MdY monthFullTable, parse_dMY monthFullTable]

/-- The format loop of `calculate_days`: the first format under which both
texts parse yields the pair of dates; a format under which either text
fails to parse is skipped (`ValueError` → `continue`). -/
def firstBothAux : List (List Char → Option SimpleDate) → List Char → List Char →
    Option (SimpleDate × SimpleDate)
  | [], _, _ => none
  | p :: ps, f, t =>
    match p f with
    | none => firstBothAux ps f t
    | some a =>
      match p t with
      | none => firstBothAux ps f t
      | some b => some (a, b)

/-- Joint parse of the stripped `date_from`/`date_to` texts under the four
accepted formats. -/
def parseBothDates (f t : String) : Option (SimpleDate × SimpleDate) :=
  firstBothAux dateFmtFns (stripChars f.data) (stripChars t.data)

/-- Proleptic Gregorian day count (days-from-civil); differences of this
count are exactly `(to_date - from_date).days` of `datetime`. -/
def toOrdinal (dt : SimpleDate) : Nat :=
  let y := if dt.m ≤ 2 then dt.y - 1 else dt.y
  let era := y / 400
  let yoe := y % 400
  let mp := if dt.m ≤ 2 then dt.m + 9 else dt.m - 3
  let doy := (153 * mp + 2) / 5 + dt.d - 1
  let doe := yoe * 365 + yoe / 4 - yoe / 100 + doy
  era * 146097 + doe

/-- `calculate_days` (src/scraper.py:773-794): 0 when either date text is
empty or blank or when no accepted format parses both; otherwise the
calendar-day difference plus one, counting both endpoint days. -/
def calculate_days (date_from date_to : String) : Int :=
  if date_from = "" ∨ date_to = "" then 0
  else if stripChars date_from.data = [] ∨ stripChars date_to.data = [] then 0
  else
    match parseBothDates date_from date_to with
    | some (a, b) => ((toOrdinal b : Int) - (toOrdinal a : Int)) + 1
    | none => 0

example : parseBothDates "01 Nov 2025" "10 Nov 2025" = some (⟨2025, 11, 1⟩, ⟨2025, 11, 10⟩) := by decide
example : calculate_days "01 Nov 2025" "10 Nov 2025" = 10 := by decide
example : calculate_days "Dec 11, 2025" "Dec 12, 2025" = 2 := by decide
example : calculate_days "30 Feb 2025" "28 Mar 2025" = 0 := by decide
example : calculate_days "" "10 Nov 2025" = 0 := by decide
example : calculate_days "05 Nov 2025" "05 Nov 2025" = 1 := by decide

/-- A row produced by one crawl pass (`scrape_run`, src/scraper.py:705-717):
content fields plus the pet counts of `PET_TYPES`. -/
structure RawListing where
  url : String
  listing_id : String
  date_range : String
  title : String
  location : String
  town : String
  country : String
  date_from : String
  date_to : String
  reviewing : Bool
  dog : Int
  cat : Int
  horse : Int
  bird : Int
  fish : Int
  rabbit : Int
  reptile : Int
  poultry : Int
  livestock : Int
  small_pets : Int
deriving DecidableEq, Repr

/-- A combined-snapshot row as `process_profile` returns it
(src/scraper.py:865-868): a crawl row plus the two auxiliary booleans,
the `unique_key` and the owning profile. -/
structure SitRow where
  url : String
  listing_id : String
  date_range : String
  title : String
  location : String
  town : String
  country : String
  date_from : String
  date_to : String
  reviewing : Bool
  dog : Int
  cat : Int
  horse : Int
  bird : Int
  fish : Int
  rabbit : Int
  reptile : Int
  poultry : Int
  livestock : Int
  small_pets : Int
  public_transport : Bool
  car_included : Bool
  unique_key : String
  profile : String
deriving DecidableEq, Repr

/-- A persisted store record (one row of `out_df`, src/scraper.py:950-953):
a combined row plus the bookkeeping fields. -/
structure SitRecord where
  url : String
  listing_id : String
  date_range : String
  title : String
  location : String
  town : String
  country : String
  date_from : String
  date_to : String
  reviewing : Bool
  dog : Int
  cat : Int
  horse : Int
  bird : Int
  fish : Int
  rabbit : Int
  reptile : Int
  poultry : Int
  livestock : Int
  small_pets : Int
  public_transport : Bool
  car_included : Bool
  unique_key : String
  profile : String
  first_seen : String
  last_changed : String
  new_this_run : Bool
  expired : Bool
deriving DecidableEq, Repr

/-- `PET_TYPES` (src/scraper.py:42). -/
def PET_TYPES : List String :=
  ["dog", "cat", "horse", "bird", "fish", "rabbit", "reptile", "poultry",
   "livestock", "small_pets"]

/-- Column access for the pet-count columns of a persisted record. -/
def petCount (r : SitRecord) : String → Int
  | "dog" => r.dog
  | "cat" => r.cat
  | "horse" => r.horse
  | "bird" => r.bird
  | "fish" => r.fish
  | "rabbit" => r.rabbit
  | "reptile" => r.reptile
  | "poultry" => r.poultry
  | "livestock" => r.livestock
  | "small_pets" => r.small_pets
  | _ => 0

/-- The site's URL base prepended to a card's relative href
(src/scraper.py:706). -/
def siteBase : String := "https://www.trustedhousesitters.com"

/-- Construction of one scraped row from a card's relative href `rel` and
extracted content (src/scraper.py:705-717): the absolute `url` is the base
plus `rel`, the stored `listing_id` is derived from `rel`, and
`date_range` is the two date texts joined by an arrow. -/
def scrapedRow (rel title location town country d1 d2 : String)
    (reviewing : Bool)
    (dog cat horse bird fish rabbit reptile poultry livestock small_pets : Int) :
    RawListing :=
  { url := siteBase ++ rel
    listing_id := listing_id_from_url rel
    date_range := d1 ++ "→" ++ d2
    title := title, location := location, town := town, country := country
    date_from := d1, date_to := d2, reviewing := reviewing
    dog := dog, cat := cat, horse := horse, bird := bird, fish := fish
    rabbit := rabbit, reptile := reptile, poultry := poultry
    livestock := livestock, small_pets := small_pets }

/-- The multi-pass combination tail of `process_profile`
(src/scraper.py:855-868): the auxiliary id sets are derived by applying
`listing_id_from_url` to each auxiliary row's absolute `url`; each
baseline row's auxiliary booleans are membership of its stored
`listing_id` in those sets; `unique_key` is `listing_id + "|" +
date_range` and every combined row is tagged with the profile name. -/
def combineRuns (baseline pt_rows car_rows : List RawListing)
    (profileName : String) : List SitRow :=
  let pt_ids := pt_rows.map (fun r => listing_id_from_url r.url)
  let car_ids := car_rows.map (fun r => listing_id_from_url r.url)
  baseline.map (fun r =>
    { url := r.url, listing_id := r.listing_id, date_range := r.date_range
      title := r.title, location := r.location, town := r.town
      country := r.country, date_from := r.date_from, date_to := r.date_to
      reviewing := r.reviewing
      dog := r.dog, cat := r.cat, horse := r.horse, bird := r.bird
      fish := r.fish, rabbit := r.rabbit, reptile := r.reptile
      poultry := r.poultry, livestock := r.livestock
      small_pets := r.small_pets
      public_transport := pt_ids.contains r.listing_id
      car_included := car_ids.contains r.listing_id
      unique_key := r.listing_id ++ "|" ++ r.date_range
      profile := profileName })

/-- Change verdict of the merge loop (src/scraper.py:932-934): some column
of `CONTENT_COLS + ['public_transport', 'car_included']` differs between
the current row and the previous record. -/
def contentDiffers (nr : SitRow) (o : SitRecord) : Bool :=
  nr.title != o.title || nr.location != o.location || nr.town != o.town ||
  nr.country != o.country || nr.date_from != o.date_from ||
  nr.date_to != o.date_to || nr.reviewing != o.reviewing ||
  nr.dog != o.dog || nr.cat != o.cat || nr.horse != o.horse ||
  nr.bird != o.bird || nr.fish != o.fish || nr.rabbit != o.rabbit ||
  nr.reptile != o.reptile || nr.poultry != o.poultry ||
  nr.livestock != o.livestock || nr.small_pets != o.small_pets ||
  nr.public_transport != o.public_transport ||
  nr.car_included != o.car_included

/-- A record freshly created for a snapshot key absent from the previous
store (src/scraper.py:925-948): `combine_first` fills every column from
the current row, the merge loop stamps `last_changed = now` (no previous
row, so `changed` holds), `first_seen` is backfilled with `now`, whence
`new_this_run` and `expired=False` follow from the column-wide updates. -/
def newRecord (r : SitRow) (now : String) : SitRecord :=
  { url := r.url, listing_id := r.listing_id, date_range := r.date_range
    title := r.title, location := r.location, town := r.town
    country := r.country, date_from := r.date_from, date_to := r.date_to
    reviewing := r.reviewing
    dog := r.dog, cat := r.cat, horse := r.horse, bird := r.bird
    fish := r.fish, rabbit := r.rabbit, reptile := r.reptile
    poultry := r.poultry, livestock := r.livestock
    small_pets := r.small_pets
    public_transport := r.public_transport, car_included := r.car_included
    unique_key := r.unique_key, profile := r.profile
    first_seen := now, last_changed := now
    new_this_run := true, expired := false }

/-- Fate of one previous-store record under the merge
(src/scraper.py:925-948).  `old_df.set_index('unique_key')
.combine_first(base_df.set_index('unique_key'))` keeps every previous
value (the previous record has no nulls), so the content columns stay the
previous ones even when the key is re-scraped.  When the key is present in
the current snapshot the loop then writes `last_changed` (stamped `now`
exactly when `contentDiffers`) and overwrites `profile` with the current
row's.  `new_this_run` is recomputed wholesale as `first_seen == now`, and
`df['expired'] = False` overwrites the whole column. -/
def mergeOldRecord (base : List SitRow) (now : String) (o : SitRecord) :
    SitRecord :=
  match base.find? (fun r => r.unique_key == o.unique_key) with
  | some nr =>
    { o with
      last_changed := if contentDiffers nr o then now else o.last_changed
      profile := nr.profile
      new_this_run := o.first_seen == now
      expired := false }
  | none =>
    { o with new_this_run := o.first_seen == now, expired := false }

/-- The store merge of `main` (src/scraper.py:905-953) for a previous store
and a combined current snapshot with key-unique frames (the setting in
which the pandas keyed operations are defined).  The merged frame's index
is the union of the two key sets, so `exp_keys = old_keys -
set(df['unique_key'])` is empty and the expired carry-over concat
contributes nothing: the output is the previous records (merged per
`mergeOldRecord`) together with a fresh record per snapshot key that is
absent from the previous store. -/
def mergeStep (old : List SitRecord) (base : List SitRow) (now : String) :
    List SitRecord :=
  (old.map (mergeOldRecord base now)) ++
    ((base.filter
        (fun r => !(old.any (fun o => o.unique_key == r.unique_key)))).map
      (fun r => newRecord r now))

/-- A profile's filter configuration (`filters` of one profile in
`filter_profiles.json`, read at src/scraper.py:760-771). -/
structure FilterConfig where
  excluded_countries : List String
  max_pets : List (String × Int)
  min_days : Option Int
deriving DecidableEq, Repr

/-- The excluded-countries step of `apply_profile_filters`
(src/scraper.py:760-762): applied only when the configured list is
non-empty (`if excluded_countries:`). -/
def countryStep (excl : List String) (l : List SitRecord) : List SitRecord :=
  if excl.isEmpty then l
  else l.filter (fun r => !(excl.contains r.country))

/-- The max-pets step of `apply_profile_filters` (src/scraper.py:765-768):
one filter per configured pet category that belongs to `PET_TYPES`,
unknown categories skipped. -/
def petsStep (pets : List (String × Int)) (l : List SitRecord) :
    List SitRecord :=
  pets.foldl
    (fun acc pm =>
      if PET_TYPES.contains pm.1 then
        acc.filter (fun r => decide (petCount r pm.1 ≤ pm.2))
      else acc)
    l

/-- The min-days step of `apply_profile_filters` (src/scraper.py:771-801):
applied only when `min_days` is configured and positive; keeps the rows
whose computed duration is at least `min_days`. -/
def minDaysStep : Option Int → List SitRecord → List SitRecord
  | none, l => l
  | some md, l =>
    if 0 < md then
      l.filter (fun r => decide (md ≤ calculate_days r.date_from r.date_to))
    else l

/-- `apply_profile_filters` (src/scraper.py:755-803): the three steps in
source order. -/
def apply_profile_filters (l : List SitRecord) (cfg : FilterConfig) :
    List SitRecord :=
  minDaysStep cfg.min_days (petsStep cfg.max_pets (countryStep cfg.excluded_countries l))

/-- The per-profile alert selection of `main` (src/scraper.py:962-964): the
merged store restricted by the boolean mask `new_this_run & (profile ==
profile_name)`, then passed through `apply_profile_filters`. -/
def selectAlerts (profileName : String) (cfg : FilterConfig)
    (out : List SitRecord) : List SitRecord :=
  apply_profile_filters
    (out.filter (fun r => r.new_this_run && (r.profile == profileName)))
    cfg

/-- Country condition of the claimed alert-eligibility predicate. -/
def countryOk (excl : List String) (r : SitRecord) : Bool :=
  !(excl.contains r.country)

/-- Pet-bound condition of the claimed alert-eligibility predicate: every
configured category that is a known pet type bounds the record's count. -/
def petsOk (pets : List (String × Int)) (r : SitRecord) : Bool :=
  pets.all (fun pm => !(PET_TYPES.contains pm.1) || decide (petCount r pm.1 ≤ pm.2))

/-- Duration condition of the claimed alert-eligibility predicate. -/
def minDaysOk : Option Int → SitRecord → Bool
  | none, _ => true
  | some md, r =>
    if 0 < md then decide (md ≤ calculate_days r.date_from r.date_to)
    else true

/-- The alert-eligibility predicate as the specification words it: new this
run, not expired, owned by the profile, and passing the three configured
filters. -/
def specEligible (cfg : FilterConfig) (profileName : String)
    (r : SitRecord) : Bool :=
  r.new_this_run && !r.expired && (r.profile == profileName) &&
    countryOk cfg.excluded_countries r && petsOk cfg.max_pets r &&
    minDaysOk cfg.min_days r

theorem mergeOldRecord_unique_key (base : List SitRow) (now : String)
    (o : SitRecord) : (mergeOldRecord base now o).unique_key = o.unique_key := by
  cases hfind : base.find? (fun r => r.unique_key == o.unique_key) <;>
    simp [mergeOldRecord, hfind]

theorem mergeOldRecord_first_seen (base : List SitRow) (now : String)
    (o : SitRecord) : (mergeOldRecord base now o).first_seen = o.first_seen := by
  cases hfind : base.find? (fun r => r.unique_key == o.unique_key) <;>
    simp [mergeOldRecord, hfind]

theorem mergeOldRecord_expired (base : List SitRow) (now : String)
    (o : SitRecord) : (mergeOldRecord base now o).expired = false := by
  cases hfind : base.find? (fun r => r.unique_key == o.unique_key) <;>
    simp [mergeOldRecord, hfind]

theorem mergeStep_expired (old : List SitRecord) (base : List SitRow)
    (now : String) : ∀ r ∈ mergeStep old base now, r.expired = false := by
  intro r hr
  rcases List.mem_append.1 hr with h | h
  · rcases List.mem_map.1 h with ⟨o, _, rfl⟩
    exact mergeOldRecord_expired base now o
  · rcases List.mem_map.1 h with ⟨b, _, rfl⟩
    rfl

theorem mergeStep_keys (old : List SitRecord) (base : List SitRow)
    (now : String) :
    (mergeStep old base now).map SitRecord.unique_key
      = old.map SitRecord.unique_key
        ++ (base.filter
            (fun r => !(old.any (fun o => o.unique_key == r.unique_key)))).map
          SitRow.unique_key := by
  unfold mergeStep
  rw [List.map_append, List.map_map, List.map_map]
  congr 1
  exact List.map_congr_left (fun o _ => mergeOldRecord_unique_key base now o)

theorem countryStep_eq (excl : List String) (l : List SitRecord) :
    countryStep excl l = l.filter (countryOk excl) := by
  cases excl with
  | nil =>
    unfold countryStep countryOk
    simp [List.filter_true]
  | cons a as =>
    unfold countryStep countryOk
    simp [List.isEmpty]

theorem petsStep_eq (pets : List (String × Int)) :
    ∀ l : List SitRecord, petsStep pets l = l.filter (petsOk pets) := by
  induction pets with
  | nil =>
    intro l
    unfold petsStep petsOk
    simp [List.filter_true]
  | cons pm pets ih =>
    intro l
    have hstep : petsStep (pm :: pets) l
        = petsStep pets
          (if PET_TYPES.contains pm.1 then
            l.filter (fun r => decide (petCount r pm.1 ≤ pm.2))
          else l) := rfl
    rw [hstep]
    by_cases hc : PET_TYPES.contains pm.1
    · rw [if_pos hc, ih, List.filter_filter]
      refine List.filter_congr ?_
      intro r _
      simp only [petsOk, List.all_cons, hc, Bool.not_true, Bool.false_or]
      exact Bool.and_comm _ _
    · rw [if_neg hc, ih]
      refine List.filter_congr ?_
      intro r _
      rw [Bool.not_eq_true] at hc
      simp only [petsOk, List.all_cons, hc, Bool.not_false, Bool.true_or,
        Bool.true_and]

theorem minDaysStep_eq (mdo : Option Int) (l : List SitRecord) :
    minDaysStep mdo l = l.filter (minDaysOk mdo) := by
  cases mdo with
  | none =>
    have h2 : l.filter (minDaysOk none) = l.filter (fun _ => true) :=
      List.filter_congr (fun r _ => rfl)
    show l = l.filter (minDaysOk none)
    rw [h2, List.filter_true]
  | some md =>
    by_cases h : 0 < md
    · simp only [minDaysStep, if_pos h]
      exact List.filter_congr (fun r _ => by simp only [minDaysOk, if_pos h])
    · simp only [minDaysStep, if_neg h]
      have h2 : l.filter (minDaysOk (some md)) = l.filter (fun _ => true) :=
        List.filter_congr (fun r _ => by simp only [minDaysOk, if_neg h])
      rw [h2, List.filter_true]

theorem apply_profile_filters_eq (l : List SitRecord) (cfg : FilterConfig) :
    apply_profile_filters l cfg
      = l.filter (fun r => countryOk cfg.excluded_countries r &&
          petsOk cfg.max_pets r && minDaysOk cfg.min_days r) := by
  unfold apply_profile_filters
  rw [countryStep_eq, petsStep_eq, List.filter_filter, minDaysStep_eq,
    List.filter_filter]
  refine List.filter_congr ?_
  intro r _
  cases countryOk cfg.excluded_countries r <;>
    cases petsOk cfg.max_pets r <;> cases minDaysOk cfg.min_days r <;> rfl

theorem firstBothAux_left_none (ps : List (List Char → Option SimpleDate))
    (f t : List Char) (h : ∀ p ∈ ps, p f = none) :
    firstBothAux ps f t = none := by
  induction ps with
  | nil => rfl
  | cons p ps ih =>
    have hp : p f = none := h p (List.mem_cons_self p ps)
    have ih' := ih (fun q hq => h q (List.mem_cons_of_mem _ hq))
    simp [firstBothAux, hp, ih']

theorem firstBothAux_right_none (ps : List (List Char → Option SimpleDate))
    (f t : List Char) (h : ∀ p ∈ ps, p t = none) :
    firstBothAux ps f t = none := by
  induction ps with
  | nil => rfl
  | cons p ps ih =>
    have hp : p t = none := h p (List.mem_cons_self p ps)
    have ih' := ih (fun q hq => h q (List.mem_cons_of_mem _ hq))
    cases hf : p f with
    | none => simp [firstBothAux, hf, ih']
    | some a => simp [firstBothAux, hf, hp, ih']

theorem dateFmt_nil : ∀ p ∈ dateFmtFns, p ([] : List Char) = none := by
  intro p hp
  fin_cases hp <;> rfl

/-- A concrete combined-snapshot row with key
`"100|01 Nov 2025→10 Nov 2025"` and the given title, as `process_profile`
would emit it for profile `"p1"`. -/
def rowK (title : String) : SitRow :=
  { url := "https://www.trustedhousesitters.com/l/100/"
    listing_id := "100"
    date_range := "01 Nov 2025→10 Nov 2025"
    title := title
    location := "Town, Country", town := "Town", country := "Country"
    date_from := "01 Nov 2025", date_to := "10 Nov 2025"
    reviewing := false
    dog := 1, cat := 0, horse := 0, bird := 0, fish := 0, rabbit := 0
    reptile := 0, poultry := 0, livestock := 0, small_pets := 0
    public_transport := false, car_included := false
    unique_key := "100|01 Nov 2025→10 Nov 2025"
    profile := "p1" }

/-- A concrete persisted record with the content of `rowK title` under the
given key, with the given bookkeeping fields. -/
def recKeyed (key title first_seen last_changed : String) (expired : Bool) :
    SitRecord :=
  { url := "https://www.trustedhousesitters.com/l/100/"
    listing_id := "100"
    date_range := "01 Nov 2025→10 Nov 2025"
    title := title
    location := "Town, Country", town := "Town", country := "Country"
    date_from := "01 Nov 2025", date_to := "10 Nov 2025"
    reviewing := false
    dog := 1, cat := 0, horse := 0, bird := 0, fish := 0, rabbit := 0
    reptile := 0, poultry := 0, livestock := 0, small_pets := 0
    public_transport := false, car_included := false
    unique_key := key
    profile := "p1"
    first_seen := first_seen, last_changed := last_changed
    new_this_run := false, expired := expired }

/-- C1.  The claim requires a previously stored key absent from the current
snapshot to be persisted with `expired=true`.  Evaluating the merge of
`main` (src/scraper.py:905-953) at such an input: the previous store holds
key `200|…` only, the snapshot holds key `100|…` only, and the retained
`200|…` record keeps its content, `first_seen` and `last_changed` with
`new_this_run=false` — but `expired` is `false`, not `true`, because
`exp_keys = old_keys - set(df['unique_key'])` is computed against the
merged frame (which already contains every previous key), so it is always
empty, and `df['expired'] = False` clears the column. -/
theorem claim_C1_expiry_code_eval :
    ((mergeStep [recKeyed "200|01 Nov 2025→10 Nov 2025" "Old title" "T0" "T0" false]
        [rowK "Fresh title"] "T1").find?
      (fun r => r.unique_key == "200|01 Nov 2025→10 Nov 2025")).map
        (fun r => (r.expired, r.new_this_run, r.first_seen, r.last_changed, r.title))
      = some (false, false, "T0", "T0", "Old title") := by decide

/-- C2.  The claim requires the merged record of a key present in both the
previous store and the current snapshot to carry the current row's content
values.  Evaluating the merge at a store holding title `"A"` and a
snapshot holding title `"B"` for the same key: the persisted record keeps
title `"A"` (with `last_changed` stamped to the run timestamp), because
`old_df.set_index('unique_key').combine_first(base_df.set_index('unique_key'))`
keeps the caller's (previous) non-null values, while the change loop
compares against the current row and bumps `last_changed`. -/
theorem claim_C2_merge_content_code_eval :
    (mergeStep [recKeyed "100|01 Nov 2025→10 Nov 2025" "A" "T0" "T0" false]
        [rowK "B"] "T1").map (fun r => (r.unique_key, r.title, r.last_changed))
      = [("100|01 Nov 2025→10 Nov 2025", "A", "T1")] := by decide

/-- C3.  The claim requires `expired=true` to be permanent across merge
steps.  Evaluating the merge at a store holding an `expired=true` record
for key `200|…` and a non-empty snapshot holding key `100|…` only: the
persisted record for `200|…` comes out with `expired=false`, because
`df['expired'] = False` is applied to every row of the merged frame and
the expired carry-over set is always empty. -/
theorem claim_C3_one_way_expiry_code_eval :
    (recKeyed "200|01 Nov 2025→10 Nov 2025" "Old title" "T0" "T0" true).expired = true
    ∧ ((mergeStep [recKeyed "200|01 Nov 2025→10 Nov 2025" "Old title" "T0" "T0" true]
        [rowK "Fresh title"] "T1").find?
          (fun r => r.unique_key == "200|01 Nov 2025→10 Nov 2025")).map
        (fun r => r.expired)
      = some false := by decide

/-- C4.  The claim requires a second run with byte-identical crawler output
to leave every `last_changed` at its first-run value.  Evaluating two
consecutive merges with the same snapshot (title `"B"`) over a store whose
record carries title `"A"`: the first run stamps `last_changed = "T1"`,
and the second run re-stamps it to `"T2"` even though the crawler output
is identical, because the first run persisted the stale title `"A"`
(`combine_first` keeps previous values) and the content comparison against
the current row therefore fires again. -/
theorem claim_C4_idempotence_code_eval :
    ((mergeStep [recKeyed "100|01 Nov 2025→10 Nov 2025" "A" "T0" "T0" false]
        [rowK "B"] "T1").map (fun r => (r.unique_key, r.last_changed)))
      = [("100|01 Nov 2025→10 Nov 2025", "T1")]
    ∧ ((mergeStep
          (mergeStep [recKeyed "100|01 Nov 2025→10 Nov 2025" "A" "T0" "T0" false]
            [rowK "B"] "T1")
          [rowK "B"] "T2").map
        (fun r => (r.unique_key, r.last_changed, r.new_this_run)))
      = [("100|01 Nov 2025→10 Nov 2025", "T2", false)] := by decide

/-- C8.  The claim (and the repository's own test,
src/test_scraper_utils.py:63) states that the listing id is the first
digit run immediately following `/l/`, with the full URL only as a
fallback when no digits are parseable.  Evaluating
`listing_id_from_url` at a URL whose digit run is followed by a query
string: the regex `r'/l/(\d+)(?:/|$)'` demands `/` or end-of-string after
the digits, so the function falls back to the full URL instead of
returning `"456"`; with a trailing slash it does return `"456"`. -/
theorem claim_C8_listing_id_code_eval :
    listing_id_from_url "https://site.com/l/456?param=value"
        = "https://site.com/l/456?param=value"
    ∧ listing_id_from_url "https://site.com/l/456/" = "456" := by decide

/-- C5.  `first_seen` is set exactly once and never regressed: every
previous-store record survives the merge under its key with `first_seen`
unchanged (`combine_first` keeps the previous non-null value and the
change loop never writes the column), and every merged record whose key
was not in the previous store carries `first_seen = now` (the column is
backfilled with `now` for fresh keys, src/scraper.py:938). -/
theorem claim_C5_first_seen (old : List SitRecord) (base : List SitRow)
    (now : String) :
    (∀ o ∈ old, ∃ r ∈ mergeStep old base now,
      r.unique_key = o.unique_key ∧ r.first_seen = o.first_seen)
    ∧ ∀ r ∈ mergeStep old base now,
        r.unique_key ∉ old.map SitRecord.unique_key → r.first_seen = now := by
  constructor
  · intro o ho
    refine ⟨mergeOldRecord base now o,
      List.mem_append_left _ (List.mem_map_of_mem _ ho),
      mergeOldRecord_unique_key base now o,
      mergeOldRecord_first_seen base now o⟩
  · intro r hr hk
    rcases List.mem_append.1 hr with h | h
    · rcases List.mem_map.1 h with ⟨o, ho, rfl⟩
      exact absurd
        (by rw [mergeOldRecord_unique_key]; exact List.mem_map_of_mem _ ho) hk
    · rcases List.mem_map.1 h with ⟨b, _, rfl⟩
      rfl

/-- C6.  When the previous store and the current snapshot are key-unique
(the setting in which the pandas keyed merge of src/scraper.py:925 is
defined), the persisted output has pairwise distinct `unique_key`s, hence
pairwise distinct `(profile, unique_key)` pairs: the previous records keep
their keys, fresh records are exactly the snapshot rows whose key no
previous record has, and the expired carry-over concat adds nothing. -/
theorem claim_C6_key_uniqueness (old : List SitRecord) (base : List SitRow)
    (now : String) (h1 : (old.map SitRecord.unique_key).Nodup)
    (h2 : (base.map SitRow.unique_key).Nodup) :
    ((mergeStep old base now).map (fun r => (r.profile, r.unique_key))).Nodup := by
  have hk : ((mergeStep old base now).map SitRecord.unique_key).Nodup := by
    rw [mergeStep_keys, List.nodup_append]
    refine ⟨h1, List.Nodup.sublist (List.Sublist.map _ (List.filter_sublist base)) h2, ?_⟩
    intro k hk1 hk2
    rcases List.mem_map.1 hk2 with ⟨rr, hrr, rfl⟩
    rcases List.mem_filter.1 hrr with ⟨_, hq⟩
    have hany : (old.any fun o => o.unique_key == rr.unique_key) = false := by
      cases hh : old.any fun o => o.unique_key == rr.unique_key
      · rfl
      · rw [hh] at hq
        simp at hq
    rcases List.mem_map.1 hk1 with ⟨o, ho, hko⟩
    exact (List.any_eq_false.1 hany) o ho (beq_iff_eq.mpr hko)
  have hcomp : (Prod.snd ∘ fun r : SitRecord => (r.profile, r.unique_key))
      = SitRecord.unique_key := rfl
  apply List.Nodup.of_map Prod.snd
  rw [List.map_map, hcomp]
  exact hk

/-- Witness for C6 at a concrete key-unique store and snapshot. -/
theorem claim_C6_witness :
    (([recKeyed "100|01 Nov 2025→10 Nov 2025" "A" "T0" "T0" false,
        recKeyed "200|01 Nov 2025→10 Nov 2025" "Old title" "T0" "T0" false].map
      SitRecord.unique_key).Nodup)
    ∧ (([rowK "B"].map SitRow.unique_key).Nodup)
    ∧ ((mergeStep
          [recKeyed "100|01 Nov 2025→10 Nov 2025" "A" "T0" "T0" false,
            recKeyed "200|01 Nov 2025→10 Nov 2025" "Old title" "T0" "T0" false]
          [rowK "B"] "T1").map (fun r => (r.profile, r.unique_key))).Nodup :=
  ⟨by decide, by decide,
    claim_C6_key_uniqueness _ _ "T1" (by decide) (by decide)⟩

/-- A crawled card whose relative href contains no parseable `/l/<digits>`
id: the crawler stores `listing_id = rel` (the fallback on the relative
href) while its absolute `url` is the site base plus `rel`. -/
def cexRaw : RawListing :=
  { url := siteBase ++ "/no-id-here"
    listing_id := listing_id_from_url "/no-id-here"
    date_range := "01 Nov 2025→10 Nov 2025"
    title := "T", location := "Town, Country", town := "Town"
    country := "Country", date_from := "01 Nov 2025", date_to := "10 Nov 2025"
    reviewing := false
    dog := 0, cat := 0, horse := 0, bird := 0, fish := 0, rabbit := 0
    reptile := 0, poultry := 0, livestock := 0, small_pets := 0 }

/-- C7 counterexample.  A baseline row and an auxiliary pass returning the
very same listing, whose URL has no parseable `/l/<digits>` id: the
listing's id *does* appear among the auxiliary pass rows' `listing_id`
fields, yet the combined auxiliary boolean is `false`, because the
combiner matches the baseline `listing_id` (fallback: the relative href)
against ids re-derived from the auxiliary rows' absolute URLs (fallback:
the full URL), and the two fallbacks differ.  So the claimed biconditional
fails at this input. -/
theorem claim_C7_counterexample :
    cexRaw.listing_id ∈ [cexRaw].map RawListing.listing_id
    ∧ (combineRuns [cexRaw] [cexRaw] [] "p1").map (fun r => r.public_transport)
      = [false] := by decide

/-- C7 amended: for every baseline row, the combined auxiliary boolean is
true exactly when the row's stored `listing_id` appears among the ids
obtained by applying `listing_id_from_url` to the auxiliary pass rows'
absolute URLs (matching is by listing id alone, never by the full
`unique_key`); these derived ids coincide with the auxiliary rows' own
`listing_id` fields whenever an `/l/<digits>` id is parseable, but not
under the full-URL fallback. -/
theorem claim_C7_amended (baseline pt_rows car_rows : List RawListing)
    (profileName : String) :
    (combineRuns baseline pt_rows car_rows profileName).map
        (fun r => r.public_transport)
      = baseline.map
          (fun r => (pt_rows.map (fun a => listing_id_from_url a.url)).contains
            r.listing_id)
    ∧ (combineRuns baseline pt_rows car_rows profileName).map
        (fun r => r.car_included)
      = baseline.map
          (fun r => (car_rows.map (fun a => listing_id_from_url a.url)).contains
            r.listing_id) := by
  unfold combineRuns
  constructor <;> rw [List.map_map] <;> rfl

/-- C9.  For every profile, the alert batch handed to the notifier — the
merged store masked by `new_this_run & (profile == name)` and passed
through `apply_profile_filters` — equals a single order-preserving filter
of the merged store by the claimed eligibility predicate: `new_this_run`,
not expired (automatic: every row of the merged output has
`expired=false`), owned by the profile, country not excluded, every known
pet-category bound respected (unknown categories ignored), and the
min-days condition (rows whose dates parse under no accepted format get
duration 0 and are dropped exactly when `min_days > 0`). -/
theorem claim_C9_alert_selection (old : List SitRecord) (base : List SitRow)
    (now : String) (cfg : FilterConfig) (profileName : String) :
    selectAlerts profileName cfg (mergeStep old base now)
      = (mergeStep old base now).filter (specEligible cfg profileName) := by
  unfold selectAlerts
  rw [apply_profile_filters_eq, List.filter_filter]
  refine List.filter_congr ?_
  intro r hr
  have hexp : r.expired = false := mergeStep_expired old base now r hr
  simp only [specEligible, hexp, Bool.not_false]
  cases r.new_this_run <;> cases r.profile == profileName <;>
    cases countryOk cfg.excluded_countries r <;>
    cases petsOk cfg.max_pets r <;> cases minDaysOk cfg.min_days r <;> rfl

/-- C10.  Whenever the two date texts of a record jointly parse under one
of the four accepted formats, `calculate_days` is the calendar-day
difference plus one (both endpoint days counted, so equal dates give
duration 1), and the min-days step keeps the record exactly when that
duration is at least the configured positive bound. -/
theorem claim_C10_min_days (r : SitRecord) (l : List SitRecord) (md : Int)
    (a b : SimpleDate) (hmd : 0 < md)
    (hp : parseBothDates r.date_from r.date_to = some (a, b)) :
    calculate_days r.date_from r.date_to
        = (toOrdinal b : Int) - (toOrdinal a : Int) + 1
    ∧ (a = b → calculate_days r.date_from r.date_to = 1)
    ∧ (r ∈ l → (r ∈ minDaysStep (some md) l
        ↔ md ≤ (toOrdinal b : Int) - (toOrdinal a : Int) + 1)) := by
  have hne1 : ¬ stripChars r.date_from.data = [] := by
    intro h0
    rw [parseBothDates, h0, firstBothAux_left_none _ _ _ dateFmt_nil] at hp
    exact Option.noConfusion hp
  have hne2 : ¬ stripChars r.date_to.data = [] := by
    intro h0
    rw [parseBothDates, h0, firstBothAux_right_none _ _ _ dateFmt_nil] at hp
    exact Option.noConfusion hp
  have hne0 : ¬ r.date_from = "" := fun h => hne1 (by rw [h]; rfl)
  have hne0' : ¬ r.date_to = "" := fun h => hne2 (by rw [h]; rfl)
  have hcd : calculate_days r.date_from r.date_to
      = (toOrdinal b : Int) - (toOrdinal a : Int) + 1 := by
    unfold calculate_days
    rw [if_neg (not_or.2 ⟨hne0, hne0'⟩), if_neg (not_or.2 ⟨hne1, hne2⟩), hp]
  refine ⟨hcd, ?_, ?_⟩
  · intro hab
    rw [hcd, hab]
    omega
  · intro hl
    simp only [minDaysStep, if_pos hmd, List.mem_filter, hl, true_and,
      decide_eq_true_eq, hcd]

/-- Witness for C10 at the concrete dates 01-10 Nov 2025 and bound 5. -/
theorem claim_C10_witness :
    ((0 : Int) < 5)
    ∧ parseBothDates (recKeyed "100|01 Nov 2025→10 Nov 2025" "A" "T0" "T0" false).date_from
        (recKeyed "100|01 Nov 2025→10 Nov 2025" "A" "T0" "T0" false).date_to
      = some (⟨2025, 11, 1⟩, ⟨2025, 11, 10⟩)
    ∧ calculate_days (recKeyed "100|01 Nov 2025→10 Nov 2025" "A" "T0" "T0" false).date_from
        (recKeyed "100|01 Nov 2025→10 Nov 2025" "A" "T0" "T0" false).date_to
      = (toOrdinal ⟨2025, 11, 10⟩ : Int) - (toOrdinal ⟨2025, 11, 1⟩ : Int) + 1 :=
  ⟨by decide, by decide,
    (claim_C10_min_days (recKeyed "100|01 Nov 2025→10 Nov 2025" "A" "T0" "T0" false)
      [] 5 ⟨2025, 11, 1⟩ ⟨2025, 11, 10⟩ (by decide) (by decide)).1⟩
